import Mathlib

/-!
Shallow embedding of `src/rdkafka_idempotence.c` (librdkafka idempotent
producer PID lifecycle) and proofs about its state machine.

The file models the five-state idempotence lifecycle, the stored producer
id (PID), the one-shot retry timer, and the observable effects of each
entry point (request enqueueing, timer re-arming, broker wakeup, log
events).  Environment behaviour that the C code consults (which broker
`rd_kafka_broker_any_usable` returns, whether
`rd_kafka_InitProducerIdRequest` fails synchronously, the clock) is passed
in as explicit parameters.
-/

namespace RdKafkaIdemp

/-- The idempotence lifecycle states (`rd_kafka_idemp_state_t`): the
initial state, `REQ_PID` (REQUESTING), `WAIT_PID` (AWAITING_RESPONSE),
`ASSIGNED` and `TERM` (TERMINATED). The enum itself is declared in a
header outside `src/`; the five members and their roles follow the spec
and the uses in `rdkafka_idempotence.c`. -/
inductive IdempState where
  | InitState
  | ReqPid
  | WaitPid
  | Assigned
  | Term
deriving DecidableEq, Repr

/-- A producer id: `(id : int64, epoch : int16)` (`rd_kafka_pid_t`).
Ranges of the machine integers are irrelevant to the claims; values are
carried as mathematical integers. -/
structure Pid where
  id : Int
  epoch : Int
deriving DecidableEq, Repr

/-- Modelled from the spec: `rd_kafka_pid_valid` is defined in a header
outside `src/`; the spec's validity rule is that an identifier is valid
iff `id >= 0`. -/
def rd_kafka_pid_valid (pid : Pid) : Bool :=
  decide (0 ≤ pid.id)

/-- Modelled from the spec: `rd_kafka_pid_reset` is defined in a header
outside `src/`; the spec says a reset/unset identifier has `id == -1`
(the epoch is likewise reset). -/
def rd_kafka_pid_reset : Pid :=
  { id := -1, epoch := -1 }

/-- Severity of a log line: `rd_kafka_dbg`/`rd_rkb_dbg` emit debug lines,
`rd_rkb_log(LOG_WARNING, ...)` emits a warning.  No call in this file
logs at error severity. -/
inductive LogLevel where
  | debug
  | warning
deriving DecidableEq, Repr

/-- One tag per distinct log statement in `rdkafka_idempotence.c`. -/
inductive LogTag where
  | idempStateChange
  | getPidAcquiring
  | getPidCantAcquire
  | getPidFailed
  | getPidIgnoringResponse
  | getPidInvalidPid
  | getPidAcquiredFresh
  | getPidAcquiredReplacing
deriving DecidableEq, Repr

/-- A log event: severity plus which statement emitted it. -/
structure LogEvent where
  level : LogLevel
  tag : LogTag
deriving DecidableEq, Repr

/-- Observable effects of one entry-point invocation: whether an
InitProducerId request was enqueued on a broker, whether the retry timer
was (re)armed via `rd_kafka_idemp_restart_request_pid_tmr`, whether
`rd_kafka_all_brokers_wakeup` was broadcast, and the log lines emitted,
in order. -/
structure Effects where
  enqueued : Bool
  tmr_restarted : Bool
  wakeup : Bool
  logs : List LogEvent
deriving DecidableEq, Repr

/-- The empty effect record: nothing enqueued, no timer action, no
wakeup, no logs. -/
def Effects.nil : Effects :=
  { enqueued := false, tmr_restarted := false, wakeup := false, logs := [] }

/-- A broker handle (`rd_kafka_broker_t *`); only identity matters here. -/
abbrev Broker := Nat

/-- The error classifications (`rd_kafka_resp_err_t`) that the code
distinguishes: no error, `RD_KAFKA_RESP_ERR__DESTROY` (operation aborted
by shutdown), `RD_KAFKA_RESP_ERR__BAD_MSG` (malformed response), and any
other code. -/
inductive RespErr where
  | NO_ERROR
  | DESTROY
  | BAD_MSG
  | other (code : Nat)
deriving DecidableEq, Repr

/-- The fields of `rk->rk_eos` (plus the retry timer's armed flag) that
`rdkafka_idempotence.c` reads and writes: the lifecycle state, the
timestamp of the last state change (`ts_idemp_state`), the stored PID,
and whether the one-shot `request_pid_tmr` is currently pending. -/
structure RK where
  idemp_state : IdempState
  ts_idemp_state : Nat
  pid : Pid
  tmr_armed : Bool
deriving DecidableEq, Repr

/-- `rd_kafka_idemp_need_pid`: true iff the state is `REQ_PID` or
`WAIT_PID`. -/
def rd_kafka_idemp_need_pid (rk : RK) : Bool :=
  rk.idemp_state = IdempState.ReqPid ∨ rk.idemp_state = IdempState.WaitPid

/-- `rd_kafka_idemp_set_state`: no-op if the new state equals the current
one; otherwise logs the change at debug severity, updates the state and
records the transition timestamp (`rd_clock()`, passed as `now`).
Returns the updated record and the log lines emitted. -/
def rd_kafka_idemp_set_state (rk : RK) (new_state : IdempState) (now : Nat) :
    RK × List LogEvent :=
  if rk.idemp_state = new_state then
    (rk, [])
  else
    ({ rk with idemp_state := new_state, ts_idemp_state := now },
     [{ level := LogLevel.debug, tag := LogTag.idempStateChange }])

/-- `rd_kafka_idemp_restart_request_pid_tmr`: (re)arms the one-shot
retry timer (`rd_kafka_timer_start_oneshot` with a 500 ms delay; the
timer service itself lives outside `src/` — modelled from the spec's
Retry Scheduler contract: re-arming replaces any pending timer). -/
def rd_kafka_idemp_restart_request_pid_tmr (rk : RK) : RK :=
  { rk with tmr_armed := true }

/-- `rd_kafka_idemp_request_pid`: guarded by `idemp_state == REQ_PID`;
resolves a broker (the given `rkb` if non-NULL, else the environment's
`rd_kafka_broker_any_usable` result `any_usable`); issues
`rd_kafka_InitProducerIdRequest`, whose synchronous result the
environment supplies as `enq_err`; on success transitions to `WAIT_PID`
and returns 1, otherwise re-arms the retry timer and returns 0. -/
def rd_kafka_idemp_request_pid (rk : RK) (rkb : Option Broker)
    (any_usable : Option Broker) (enq_err : RespErr) (now : Nat) :
    RK × Effects × Int :=
  if rk.idemp_state ≠ IdempState.ReqPid then
    (rk, Effects.nil, 0)
  else
    let resolved : Option Broker :=
      match rkb with
      | none => any_usable
      | some b => some b
    match resolved with
    | none =>
        (rd_kafka_idemp_restart_request_pid_tmr rk,
         { enqueued := false, tmr_restarted := true, wakeup := false,
           logs := [] },
         0)
    | some _ =>
        let acquiring : LogEvent :=
          { level := LogLevel.debug, tag := LogTag.getPidAcquiring }
        if enq_err = RespErr.NO_ERROR then
          let r := rd_kafka_idemp_set_state rk IdempState.WaitPid now
          (r.1,
           { enqueued := true, tmr_restarted := false, wakeup := false,
             logs := [acquiring] ++ r.2 },
           1)
        else
          (rd_kafka_idemp_restart_request_pid_tmr rk,
           { enqueued := false, tmr_restarted := true, wakeup := false,
             logs := [acquiring,
                      { level := LogLevel.debug,
                        tag := LogTag.getPidCantAcquire }] },
           0)

/-- `rd_kafka_idemp_request_pid_tmr_cb`: the one-shot timer fires (the
timer service disarms a one-shot timer as it fires — modelled from the
spec: "schedule a callback once after a delay") and the callback calls
`rd_kafka_idemp_request_pid(rk, NULL, "retry timer")`. -/
def rd_kafka_idemp_request_pid_tmr_cb (rk : RK)
    (any_usable : Option Broker) (enq_err : RespErr) (now : Nat) :
    RK × Effects × Int :=
  rd_kafka_idemp_request_pid { rk with tmr_armed := false }
    none any_usable enq_err now

/-- `rd_kafka_idemp_request_pid_failed`: logs the failure at debug
severity; if the error is `RD_KAFKA_RESP_ERR__DESTROY` it returns with no
further action; otherwise it re-arms the retry timer.  The lifecycle
state and the stored PID are never touched. -/
def rd_kafka_idemp_request_pid_failed (rk : RK) (err : RespErr) :
    RK × Effects :=
  let failedLog : LogEvent :=
    { level := LogLevel.debug, tag := LogTag.getPidFailed }
  if err = RespErr.DESTROY then
    (rk,
     { enqueued := false, tmr_restarted := false, wakeup := false,
       logs := [failedLog] })
  else
    (rd_kafka_idemp_restart_request_pid_tmr rk,
     { enqueued := false, tmr_restarted := true, wakeup := false,
       logs := [failedLog] })

/-- `rd_kafka_idemp_pid_update`: ignores the response unless the state is
`WAIT_PID`; an invalid PID is logged at warning severity and routed to
`rd_kafka_idemp_request_pid_failed` with `RD_KAFKA_RESP_ERR__BAD_MSG`;
a valid PID is logged (fresh vs. replacing, judged on the previously
stored PID), stored, the state is set to `ASSIGNED`, and all broker
threads are woken. -/
def rd_kafka_idemp_pid_update (rk : RK) (pid : Pid) (now : Nat) :
    RK × Effects :=
  if rk.idemp_state ≠ IdempState.WaitPid then
    (rk,
     { enqueued := false, tmr_restarted := false, wakeup := false,
       logs := [{ level := LogLevel.debug,
                  tag := LogTag.getPidIgnoringResponse }] })
  else if ¬ rd_kafka_pid_valid pid then
    let r := rd_kafka_idemp_request_pid_failed rk RespErr.BAD_MSG
    (r.1,
     { enqueued := r.2.enqueued, tmr_restarted := r.2.tmr_restarted,
       wakeup := r.2.wakeup,
       logs := [{ level := LogLevel.warning,
                  tag := LogTag.getPidInvalidPid }] ++ r.2.logs })
  else
    let acquiredLog : LogEvent :=
      if rd_kafka_pid_valid rk.pid then
        { level := LogLevel.debug, tag := LogTag.getPidAcquiredReplacing }
      else
        { level := LogLevel.debug, tag := LogTag.getPidAcquiredFresh }
    let r :=
      rd_kafka_idemp_set_state { rk with pid := pid } IdempState.Assigned now
    (r.1,
     { enqueued := false, tmr_restarted := false, wakeup := true,
       logs := [acquiredLog] ++ r.2 })

/-- `rd_kafka_idemp_init`: resets the PID, sets the state to `REQ_PID`
and arms the first retry timer.  Called once from `rd_kafka_new()`. -/
def rd_kafka_idemp_init (rk : RK) (now : Nat) : RK × Effects :=
  let rk1 := { rk with pid := rd_kafka_pid_reset }
  let r := rd_kafka_idemp_set_state rk1 IdempState.ReqPid now
  (rd_kafka_idemp_restart_request_pid_tmr r.1,
   { enqueued := false, tmr_restarted := true, wakeup := false,
     logs := r.2 })

/-- `rd_kafka_idemp_term`: sets the state to `TERM` and synchronously
stops the retry timer (`rd_kafka_timer_stop` with `lock=1`; the timer
service lives outside `src/` — modelled from the spec: cancellation of an
already-stopped timer is safe and simply leaves no timer pending). -/
def rd_kafka_idemp_term (rk : RK) (now : Nat) : RK × Effects :=
  let r := rd_kafka_idemp_set_state rk IdempState.Term now
  ({ r.1 with tmr_armed := false },
   { enqueued := false, tmr_restarted := false, wakeup := false,
     logs := r.2 })

/-- A system configuration: the idempotence record together with whether
an InitProducerId request is currently in flight (enqueued but not yet
answered).  The transport layer invokes exactly one completion callback
per enqueued request, so responses (`rd_kafka_idemp_pid_update`) and
request failures (`rd_kafka_idemp_request_pid_failed`) can only be
delivered while a request is in flight. -/
structure Sys where
  rk : RK
  inflight : Bool
deriving DecidableEq, Repr

/-- The configuration right after `rd_kafka_idemp_init` runs during
`rd_kafka_new()`: no request is in flight yet. -/
def sysInit (rk0 : RK) (now : Nat) : Sys :=
  { rk := (rd_kafka_idemp_init rk0 now).1, inflight := false }

/-- One step of the system after initialization: an external trigger of
`rd_kafka_idemp_request_pid`, the retry timer firing (only possible while
armed), the transport layer delivering a failure or a response for the
in-flight request, or termination. -/
inductive SysStep : Sys → Sys → Prop where
  | requestPid (s s' : Sys) (rkb any_usable : Option Broker)
      (enq_err : RespErr) (now : Nat)
      (h : s' =
        { rk := (rd_kafka_idemp_request_pid s.rk rkb any_usable enq_err now).1,
          inflight := s.inflight ||
            (rd_kafka_idemp_request_pid s.rk rkb any_usable
              enq_err now).2.1.enqueued }) :
      SysStep s s'
  | tmrFire (s s' : Sys) (any_usable : Option Broker)
      (enq_err : RespErr) (now : Nat)
      (harm : s.rk.tmr_armed = true)
      (h : s' =
        { rk := (rd_kafka_idemp_request_pid_tmr_cb s.rk any_usable
                   enq_err now).1,
          inflight := s.inflight ||
            (rd_kafka_idemp_request_pid_tmr_cb s.rk any_usable
              enq_err now).2.1.enqueued }) :
      SysStep s s'
  | respFailed (s s' : Sys) (err : RespErr)
      (hin : s.inflight = true)
      (h : s' = { rk := (rd_kafka_idemp_request_pid_failed s.rk err).1,
                  inflight := false }) :
      SysStep s s'
  | respPid (s s' : Sys) (pid : Pid) (now : Nat)
      (hin : s.inflight = true)
      (h : s' = { rk := (rd_kafka_idemp_pid_update s.rk pid now).1,
                  inflight := false }) :
      SysStep s s'
  | term (s s' : Sys) (now : Nat)
      (h : s' = { rk := (rd_kafka_idemp_term s.rk now).1,
                  inflight := s.inflight }) :
      SysStep s s'

/-- A configuration reachable from initialization through any finite
sequence of system steps. -/
inductive Reachable : Sys → Prop where
  | base (rk0 : RK) (now : Nat) : Reachable (sysInit rk0 now)
  | step (s s' : Sys) : Reachable s → SysStep s s' → Reachable s'

/-- The validity invariant on one idempotence record: whenever the state
is `ASSIGNED`, the stored PID is valid. -/
def AssignedValid (rk : RK) : Prop :=
  rk.idemp_state = IdempState.Assigned → rd_kafka_pid_valid rk.pid = true

/-- A stalled configuration: the state is `WAIT_PID` (or already
`TERM`) while no request is in flight.  From here the guard in
`rd_kafka_idemp_request_pid` rejects every (re)attempt, and no response
callback can ever arrive, so the configuration can never progress to
`ASSIGNED`. -/
def Stalled (s : Sys) : Prop :=
  (s.rk.idemp_state = IdempState.WaitPid ∨
    s.rk.idemp_state = IdempState.Term) ∧
    s.inflight = false

/-- A fresh client record as `rd_kafka_new()` hands it to
`rd_kafka_idemp_init`: zero-initialized fields, idempotence state not yet
entered. -/
def rkFresh : RK :=
  { idemp_state := IdempState.InitState, ts_idemp_state := 0,
    pid := { id := 0, epoch := 0 }, tmr_armed := false }

/-- The configuration right after initialization of the fresh client. -/
def sys0 : Sys := sysInit rkFresh 0

/-- After the first retry timer firing finds a usable broker and the
InitProducerId request is enqueued: `WAIT_PID`, request in flight. -/
def sys1 : Sys :=
  { rk := { idemp_state := IdempState.WaitPid, ts_idemp_state := 1,
            pid := rd_kafka_pid_reset, tmr_armed := false },
    inflight := true }

/-- After the broker reports a failure for the in-flight request: still
`WAIT_PID`, no request in flight, retry timer re-armed. -/
def sys2 : Sys :=
  { rk := { idemp_state := IdempState.WaitPid, ts_idemp_state := 1,
            pid := rd_kafka_pid_reset, tmr_armed := true },
    inflight := false }

/-- After the re-armed retry timer fires and is rejected by the
`REQ_PID` guard: still `WAIT_PID`, no request in flight, and no timer
pending any more. -/
def sys3 : Sys :=
  { rk := { idemp_state := IdempState.WaitPid, ts_idemp_state := 1,
            pid := rd_kafka_pid_reset, tmr_armed := false },
    inflight := false }

/-- The configuration after a valid PID `(1000, 0)` is delivered while
`WAIT_PID`: assigned. -/
def sysA : Sys :=
  { rk := { idemp_state := IdempState.Assigned, ts_idemp_state := 2,
            pid := { id := 1000, epoch := 0 }, tmr_armed := false },
    inflight := false }

/-- A record whose lifecycle state is already `TERM`, as after
termination: used to exercise the stale-response path. -/
def rkTerm : RK :=
  { idemp_state := IdempState.Term, ts_idemp_state := 3,
    pid := rd_kafka_pid_reset, tmr_armed := false }

/-- A record in `WAIT_PID` that already holds a valid PID from an earlier
assignment cycle: used to exercise the overwrite path. -/
def rkPrev : RK :=
  { idemp_state := IdempState.WaitPid, ts_idemp_state := 5,
    pid := { id := 7, epoch := 1 }, tmr_armed := false }

/-- The re-entrancy guard as an equation: called in any state other than
`REQ_PID`, `rd_kafka_idemp_request_pid` returns 0 with no effect at all. -/
theorem request_pid_guard_eq (rk : RK) (rkb any_usable : Option Broker)
    (enq_err : RespErr) (now : Nat)
    (h : rk.idemp_state ≠ IdempState.ReqPid) :
    rd_kafka_idemp_request_pid rk rkb any_usable enq_err now =
      (rk, Effects.nil, 0) := by
  simp [rd_kafka_idemp_request_pid, h]

/-- `rd_kafka_idemp_request_pid` leaves the stored PID untouched. -/
theorem request_pid_pid_eq (rk : RK) (rkb any_usable : Option Broker)
    (enq_err : RespErr) (now : Nat) :
    (rd_kafka_idemp_request_pid rk rkb any_usable enq_err now).1.pid =
      rk.pid := by
  unfold rd_kafka_idemp_request_pid rd_kafka_idemp_set_state
    rd_kafka_idemp_restart_request_pid_tmr
  split
  · rfl
  · cases h : (match rkb with | none => any_usable | some b => some b) with
    | none => rfl
    | some b =>
        simp only []
        split
        · split <;> rfl
        · rfl

/-- The resulting state of `rd_kafka_idemp_request_pid` is either the
original state or `WAIT_PID` entered from `REQ_PID`. -/
theorem request_pid_state_cases (rk : RK) (rkb any_usable : Option Broker)
    (enq_err : RespErr) (now : Nat) :
    (rd_kafka_idemp_request_pid rk rkb any_usable enq_err now).1.idemp_state =
        rk.idemp_state ∨
      ((rd_kafka_idemp_request_pid rk rkb any_usable
          enq_err now).1.idemp_state = IdempState.WaitPid ∧
        rk.idemp_state = IdempState.ReqPid) := by
  unfold rd_kafka_idemp_request_pid rd_kafka_idemp_set_state
    rd_kafka_idemp_restart_request_pid_tmr
  split
  · exact Or.inl rfl
  · rename_i hreq
    cases h : (match rkb with | none => any_usable | some b => some b) with
    | none => exact Or.inl rfl
    | some b =>
        simp only []
        split
        · split
          · exact Or.inl rfl
          · exact Or.inr ⟨rfl, by simpa using hreq⟩
        · exact Or.inl rfl

/-- Called while `REQ_PID` with a resolved broker whose enqueue fails
synchronously, `rd_kafka_idemp_request_pid` only re-arms the timer, logs,
and returns 0. -/
theorem request_pid_enq_fail_eq (rk : RK) (rkb any_usable : Option Broker)
    (enq_err : RespErr) (now : Nat)
    (hreq : rk.idemp_state = IdempState.ReqPid)
    (hb : (match rkb with | none => any_usable | some b => some b).isSome)
    (he : enq_err ≠ RespErr.NO_ERROR) :
    rd_kafka_idemp_request_pid rk rkb any_usable enq_err now =
      ({ rk with tmr_armed := true },
       { enqueued := false, tmr_restarted := true, wakeup := false,
         logs := [{ level := LogLevel.debug, tag := LogTag.getPidAcquiring },
                  { level := LogLevel.debug,
                    tag := LogTag.getPidCantAcquire }] },
       0) := by
  unfold rd_kafka_idemp_request_pid rd_kafka_idemp_restart_request_pid_tmr
  rw [if_neg (by simp [hreq])]
  cases hm : (match rkb with | none => any_usable | some b => some b) with
  | none => rw [hm] at hb; simp at hb
  | some b => simp [he]

/-- Called while `REQ_PID` with a resolved broker and a successful
enqueue, `rd_kafka_idemp_request_pid` transitions to `WAIT_PID` and
returns 1. -/
theorem request_pid_success_eq (rk : RK) (rkb any_usable : Option Broker)
    (now : Nat)
    (hreq : rk.idemp_state = IdempState.ReqPid)
    (hb : (match rkb with | none => any_usable | some b => some b).isSome) :
    rd_kafka_idemp_request_pid rk rkb any_usable RespErr.NO_ERROR now =
      ({ rk with idemp_state := IdempState.WaitPid, ts_idemp_state := now },
       { enqueued := true, tmr_restarted := false, wakeup := false,
         logs := [{ level := LogLevel.debug, tag := LogTag.getPidAcquiring },
                  { level := LogLevel.debug,
                    tag := LogTag.idempStateChange }] },
       1) := by
  unfold rd_kafka_idemp_request_pid rd_kafka_idemp_set_state
  rw [if_neg (by simp [hreq])]
  cases hm : (match rkb with | none => any_usable | some b => some b) with
  | none => rw [hm] at hb; simp at hb
  | some b => simp [hreq]

/-- Called while `REQ_PID` with no broker resolvable,
`rd_kafka_idemp_request_pid` only re-arms the timer and returns 0. -/
theorem request_pid_no_broker_eq (rk : RK) (now : Nat) (enq_err : RespErr)
    (hreq : rk.idemp_state = IdempState.ReqPid) :
    rd_kafka_idemp_request_pid rk none none enq_err now =
      ({ rk with tmr_armed := true },
       { enqueued := false, tmr_restarted := true, wakeup := false,
         logs := [] },
       0) := by
  unfold rd_kafka_idemp_request_pid rd_kafka_idemp_restart_request_pid_tmr
  rw [if_neg (by simp [hreq])]

/-- `rd_kafka_idemp_request_pid_failed` on `RD_KAFKA_RESP_ERR__DESTROY`:
the failure is dropped after the debug log; nothing else happens. -/
theorem request_pid_failed_destroy_eq (rk : RK) :
    rd_kafka_idemp_request_pid_failed rk RespErr.DESTROY =
      (rk,
       { enqueued := false, tmr_restarted := false, wakeup := false,
         logs := [{ level := LogLevel.debug,
                    tag := LogTag.getPidFailed }] }) := by
  simp [rd_kafka_idemp_request_pid_failed]

/-- `rd_kafka_idemp_request_pid_failed` on any other error: the retry
timer is re-armed; state and PID are untouched. -/
theorem request_pid_failed_other_eq (rk : RK) (err : RespErr)
    (h : err ≠ RespErr.DESTROY) :
    rd_kafka_idemp_request_pid_failed rk err =
      ({ rk with tmr_armed := true },
       { enqueued := false, tmr_restarted := true, wakeup := false,
         logs := [{ level := LogLevel.debug,
                    tag := LogTag.getPidFailed }] }) := by
  simp [rd_kafka_idemp_request_pid_failed, rd_kafka_idemp_restart_request_pid_tmr, h]

/-- A response delivered in any state other than `WAIT_PID` is logged and
discarded: no state change, no timer, no wakeup. -/
theorem pid_update_stale_eq (rk : RK) (pid : Pid) (now : Nat)
    (h : rk.idemp_state ≠ IdempState.WaitPid) :
    rd_kafka_idemp_pid_update rk pid now =
      (rk,
       { enqueued := false, tmr_restarted := false, wakeup := false,
         logs := [{ level := LogLevel.debug,
                    tag := LogTag.getPidIgnoringResponse }] }) := by
  simp [rd_kafka_idemp_pid_update, h]

/-- An invalid PID delivered while `WAIT_PID` is routed to the failure
path with `RD_KAFKA_RESP_ERR__BAD_MSG` after a warning log. -/
theorem pid_update_invalid_eq (rk : RK) (pid : Pid) (now : Nat)
    (hw : rk.idemp_state = IdempState.WaitPid)
    (hv : rd_kafka_pid_valid pid = false) :
    rd_kafka_idemp_pid_update rk pid now =
      ({ rk with tmr_armed := true },
       { enqueued := false, tmr_restarted := true, wakeup := false,
         logs := [{ level := LogLevel.warning,
                    tag := LogTag.getPidInvalidPid },
                  { level := LogLevel.debug,
                    tag := LogTag.getPidFailed }] }) := by
  unfold rd_kafka_idemp_pid_update
  rw [if_neg (by simp [hw])]
  rw [request_pid_failed_other_eq rk RespErr.BAD_MSG (by simp)]
  simp [hv]

/-- A valid PID delivered while `WAIT_PID` is stored (overwriting any
previous PID), the state becomes `ASSIGNED`, and all broker threads are
woken. -/
theorem pid_update_valid_eq (rk : RK) (pid : Pid) (now : Nat)
    (hw : rk.idemp_state = IdempState.WaitPid)
    (hv : rd_kafka_pid_valid pid = true) :
    rd_kafka_idemp_pid_update rk pid now =
      ({ rk with
          pid := pid
          idemp_state := IdempState.Assigned
          ts_idemp_state := now },
       { enqueued := false, tmr_restarted := false, wakeup := true,
         logs := [(if rd_kafka_pid_valid rk.pid = true then
                     { level := LogLevel.debug,
                       tag := LogTag.getPidAcquiredReplacing }
                   else
                     { level := LogLevel.debug,
                       tag := LogTag.getPidAcquiredFresh }),
                  { level := LogLevel.debug,
                    tag := LogTag.idempStateChange }] }) := by
  unfold rd_kafka_idemp_pid_update rd_kafka_idemp_set_state
  rw [if_neg (by simp [hw])]
  rw [if_neg (by simp [hv])]
  simp [hw]

/-- `rd_kafka_idemp_init` always leaves the PID reset, the state
`REQ_PID` and the retry timer armed. -/
theorem init_fields_eq (rk0 : RK) (now : Nat) :
    (rd_kafka_idemp_init rk0 now).1.pid = rd_kafka_pid_reset ∧
      (rd_kafka_idemp_init rk0 now).1.idemp_state = IdempState.ReqPid ∧
      (rd_kafka_idemp_init rk0 now).1.tmr_armed = true := by
  unfold rd_kafka_idemp_init rd_kafka_idemp_set_state
    rd_kafka_idemp_restart_request_pid_tmr
  by_cases h : rk0.idemp_state = IdempState.ReqPid <;> simp [h]

/-- `rd_kafka_idemp_term` always leaves the state `TERM`, the timer
stopped, and the PID untouched. -/
theorem term_fields_eq (rk : RK) (now : Nat) :
    (rd_kafka_idemp_term rk now).1.idemp_state = IdempState.Term ∧
      (rd_kafka_idemp_term rk now).1.tmr_armed = false ∧
      (rd_kafka_idemp_term rk now).1.pid = rk.pid := by
  unfold rd_kafka_idemp_term rd_kafka_idemp_set_state
  split <;> simp_all

/-- `rd_kafka_idemp_term` applied to a record already terminated with its
timer stopped changes nothing and produces no effects at all. -/
theorem term_noop (rk : RK) (now : Nat)
    (hs : rk.idemp_state = IdempState.Term)
    (ht : rk.tmr_armed = false) :
    rd_kafka_idemp_term rk now = (rk, Effects.nil) := by
  unfold rd_kafka_idemp_term rd_kafka_idemp_set_state
  rw [if_pos hs]
  cases rk with
  | mk a b c d => simp_all [Effects.nil]

/-- `rd_kafka_idemp_request_pid_failed` never touches the lifecycle state
or the stored PID. -/
theorem request_pid_failed_fields (rk : RK) (err : RespErr) :
    (rd_kafka_idemp_request_pid_failed rk err).1.idemp_state =
        rk.idemp_state ∧
      (rd_kafka_idemp_request_pid_failed rk err).1.pid = rk.pid := by
  unfold rd_kafka_idemp_request_pid_failed
    rd_kafka_idemp_restart_request_pid_tmr
  split <;> exact ⟨rfl, rfl⟩

/-- The resulting state of `rd_kafka_idemp_pid_update` is either the
original state or `ASSIGNED` entered from `WAIT_PID` with a valid PID
stored. -/
theorem pid_update_state_cases (rk : RK) (pid : Pid) (now : Nat) :
    (rd_kafka_idemp_pid_update rk pid now).1.idemp_state =
        rk.idemp_state ∨
      ((rd_kafka_idemp_pid_update rk pid now).1.idemp_state =
          IdempState.Assigned ∧
        rk.idemp_state = IdempState.WaitPid ∧
        rd_kafka_pid_valid pid = true ∧
        (rd_kafka_idemp_pid_update rk pid now).1.pid = pid) := by
  by_cases hw : rk.idemp_state = IdempState.WaitPid
  · by_cases hv : rd_kafka_pid_valid pid = true
    · rw [pid_update_valid_eq rk pid now hw hv]
      exact Or.inr ⟨rfl, hw, hv, rfl⟩
    · rw [pid_update_invalid_eq rk pid now hw (by simpa using hv)]
      exact Or.inl rfl
  · rw [pid_update_stale_eq rk pid now hw]
    exact Or.inl rfl

/-- `rd_kafka_idemp_pid_update` either keeps the stored PID or stores the
delivered one. -/
theorem pid_update_pid_cases (rk : RK) (pid : Pid) (now : Nat) :
    (rd_kafka_idemp_pid_update rk pid now).1.pid = rk.pid ∨
      (rd_kafka_idemp_pid_update rk pid now).1.pid = pid := by
  by_cases hw : rk.idemp_state = IdempState.WaitPid
  · by_cases hv : rd_kafka_pid_valid pid = true
    · rw [pid_update_valid_eq rk pid now hw hv]
      exact Or.inr rfl
    · rw [pid_update_invalid_eq rk pid now hw (by simpa using hv)]
      exact Or.inl rfl
  · rw [pid_update_stale_eq rk pid now hw]
    exact Or.inl rfl

/-- `rd_kafka_idemp_pid_update` preserves the validity invariant. -/
theorem pid_update_assignedValid (rk : RK) (pid : Pid) (now : Nat)
    (h : AssignedValid rk) :
    AssignedValid (rd_kafka_idemp_pid_update rk pid now).1 := by
  by_cases hw : rk.idemp_state = IdempState.WaitPid
  · by_cases hv : rd_kafka_pid_valid pid = true
    · rw [pid_update_valid_eq rk pid now hw hv]
      intro _
      simpa using hv
    · rw [pid_update_invalid_eq rk pid now hw (by simpa using hv)]
      intro hc
      exact absurd (hw.symm.trans (by simpa using hc)) (by decide)
  · rw [pid_update_stale_eq rk pid now hw]
    exact h

/-- Every system step preserves the validity invariant. -/
theorem sysStep_assignedValid (s s' : Sys) (hs : SysStep s s')
    (h : AssignedValid s.rk) : AssignedValid s'.rk := by
  cases hs with
  | requestPid rkb u e now heq =>
      subst heq
      intro hc
      rcases request_pid_state_cases s.rk rkb u e now with hst | ⟨hst, _⟩
      · rw [request_pid_pid_eq]
        exact h (hst.symm.trans hc)
      · exact absurd (hst.symm.trans hc) (by decide)
  | tmrFire u e now harm heq =>
      subst heq
      intro hc
      unfold rd_kafka_idemp_request_pid_tmr_cb at hc ⊢
      rcases request_pid_state_cases { s.rk with tmr_armed := false }
          none u e now with hst | ⟨hst, _⟩
      · rw [request_pid_pid_eq]
        exact h (hst.symm.trans hc)
      · exact absurd (hst.symm.trans hc) (by decide)
  | respFailed err hin heq =>
      subst heq
      intro hc
      rw [(request_pid_failed_fields s.rk err).2]
      exact h (((request_pid_failed_fields s.rk err).1).symm.trans hc)
  | respPid pid now hin heq =>
      subst heq
      exact pid_update_assignedValid s.rk pid now h
  | term now heq =>
      subst heq
      intro hc
      exact absurd (((term_fields_eq s.rk now).1).symm.trans hc) (by decide)

/-- Every reachable configuration satisfies the validity invariant. -/
theorem reachable_assignedValid (s : Sys) (h : Reachable s) :
    AssignedValid s.rk := by
  induction h with
  | base rk0 now =>
      intro hc
      exact absurd (((init_fields_eq rk0 now).2.1).symm.trans hc) (by decide)
  | step s s' _ hs ih => exact sysStep_assignedValid s s' hs ih

/-- `WAIT_PID` is only ever entered from `REQ_PID`: any step ending in
`WAIT_PID` started in `WAIT_PID` or in `REQ_PID`. -/
theorem sysStep_waitPid_from (s s' : Sys) (hs : SysStep s s')
    (h : s'.rk.idemp_state = IdempState.WaitPid) :
    s.rk.idemp_state = IdempState.WaitPid ∨
      s.rk.idemp_state = IdempState.ReqPid := by
  cases hs with
  | requestPid rkb u e now heq =>
      subst heq
      rcases request_pid_state_cases s.rk rkb u e now with hst | ⟨_, hreq⟩
      · exact Or.inl (hst.symm.trans h)
      · exact Or.inr hreq
  | tmrFire u e now harm heq =>
      subst heq
      unfold rd_kafka_idemp_request_pid_tmr_cb at h
      rcases request_pid_state_cases { s.rk with tmr_armed := false }
          none u e now with hst | ⟨_, hreq⟩
      · exact Or.inl (hst.symm.trans h)
      · exact Or.inr hreq
  | respFailed err hin heq =>
      subst heq
      exact Or.inl (((request_pid_failed_fields s.rk err).1).symm.trans h)
  | respPid pid now hin heq =>
      subst heq
      rcases pid_update_state_cases s.rk pid now with hst | ⟨hst, _, _, _⟩
      · exact Or.inl (hst.symm.trans h)
      · exact absurd (hst.symm.trans h) (by decide)
  | term now heq =>
      subst heq
      exact absurd (((term_fields_eq s.rk now).1).symm.trans h) (by decide)

/-- Every system step preserves stalling. -/
theorem sysStep_stalled (s s' : Sys) (hs : SysStep s s')
    (h : Stalled s) : Stalled s' := by
  have hne : s.rk.idemp_state ≠ IdempState.ReqPid := by
    rcases h.1 with hw | ht
    · rw [hw]; decide
    · rw [ht]; decide
  cases hs with
  | requestPid rkb u e now heq =>
      subst heq
      rw [request_pid_guard_eq s.rk rkb u e now hne]
      exact ⟨h.1, by simp [h.2, Effects.nil]⟩
  | tmrFire u e now harm heq =>
      subst heq
      unfold rd_kafka_idemp_request_pid_tmr_cb
      rw [request_pid_guard_eq { s.rk with tmr_armed := false } none u e now
            (by simpa using hne)]
      exact ⟨by simpa using h.1, by simp [h.2, Effects.nil]⟩
  | respFailed err hin heq =>
      rw [h.2] at hin
      exact absurd hin (by decide)
  | respPid pid now hin heq =>
      rw [h.2] at hin
      exact absurd hin (by decide)
  | term now heq =>
      subst heq
      exact ⟨Or.inr (term_fields_eq s.rk now).1, h.2⟩

/-- The retry timer callback on a record in `REQ_PID`, with a usable
broker and a successful enqueue, returns 1. -/
theorem tmr_cb_ret_one (rk : RK) (b2 : Broker) (now2 : Nat)
    (hreq : rk.idemp_state = IdempState.ReqPid) :
    (rd_kafka_idemp_request_pid_tmr_cb rk (some b2)
      RespErr.NO_ERROR now2).2.2 = 1 := by
  unfold rd_kafka_idemp_request_pid_tmr_cb
  rw [request_pid_success_eq { rk with tmr_armed := false } none (some b2)
        now2 (by exact hreq) rfl]

/-- Stalling persists along any finite sequence of system steps. -/
theorem reflTransGen_stalled (s s' : Sys)
    (h : Relation.ReflTransGen SysStep s s') (hst : Stalled s) :
    Stalled s' := by
  induction h with
  | refl => exact hst
  | tail _ hbc ih => exact sysStep_stalled _ _ hbc ih

/-- C1: in every reachable configuration, if the lifecycle state is
`ASSIGNED` then the stored PID is valid (`id >= 0`); moreover
`rd_kafka_idemp_pid_update` reaches `ASSIGNED` only from `WAIT_PID` with
a valid PID which it stores, and `rd_kafka_idemp_init` resets the PID
and enters `REQ_PID`. -/
theorem idemp_assigned_state_implies_valid_pid :
    (∀ s : Sys, Reachable s →
      s.rk.idemp_state = IdempState.Assigned →
        rd_kafka_pid_valid s.rk.pid = true) ∧
    (∀ (rk : RK) (pid : Pid) (now : Nat),
      (rd_kafka_idemp_pid_update rk pid now).1.idemp_state =
          IdempState.Assigned →
        rk.idemp_state = IdempState.Assigned ∨
          (rd_kafka_pid_valid pid = true ∧
            (rd_kafka_idemp_pid_update rk pid now).1.pid = pid ∧
            rk.idemp_state = IdempState.WaitPid)) ∧
    (∀ (rk0 : RK) (now : Nat),
      (rd_kafka_idemp_init rk0 now).1.pid = rd_kafka_pid_reset ∧
        (rd_kafka_idemp_init rk0 now).1.idemp_state =
          IdempState.ReqPid) := by
  refine ⟨fun s h => reachable_assignedValid s h, ?_,
    fun rk0 now => ⟨(init_fields_eq rk0 now).1, (init_fields_eq rk0 now).2.1⟩⟩
  intro rk pid now hc
  rcases pid_update_state_cases rk pid now with hst | ⟨_, hw, hv, hp⟩
  · exact Or.inl (hst.symm.trans hc)
  · exact Or.inr ⟨hv, hp, hw⟩

/-- Witness for C1: the concrete reachable configuration `sysA` (init,
retry timer fires and enqueues, valid response `(1000, 0)` arrives) is
`ASSIGNED` and its stored PID is valid. -/
theorem idemp_assigned_state_implies_valid_pid_witness :
    rd_kafka_pid_valid sysA.rk.pid = true :=
  idemp_assigned_state_implies_valid_pid.1 sysA
    (Reachable.step sys1 sysA
      (Reachable.step sys0 sys1 (Reachable.base rkFresh 0)
        (SysStep.tmrFire sys0 sys1 (some 0) RespErr.NO_ERROR 1 (by decide)
          (by decide)))
      (SysStep.respPid sys1 sysA { id := 1000, epoch := 0 } 2 (by decide)
        (by decide)))
    (by decide)

/-- C2: `rd_kafka_idemp_request_pid` called in any state other than
`REQ_PID` returns 0 with no side effect at all (no state change, nothing
enqueued, no timer, no logs), and `WAIT_PID` is only ever entered from
`REQ_PID`, so at most one InitProducerId request is in flight at a
time. -/
theorem idemp_request_pid_reentrancy_guard :
    (∀ (rk : RK) (rkb any_usable : Option Broker) (enq_err : RespErr)
        (now : Nat),
      rk.idemp_state ≠ IdempState.ReqPid →
        rd_kafka_idemp_request_pid rk rkb any_usable enq_err now =
          (rk, Effects.nil, 0)) ∧
    ∀ s s' : Sys, SysStep s s' →
      s'.rk.idemp_state = IdempState.WaitPid →
      s.rk.idemp_state = IdempState.WaitPid ∨
        s.rk.idemp_state = IdempState.ReqPid :=
  ⟨request_pid_guard_eq, sysStep_waitPid_from⟩

/-- Witness for C2: a second acquisition call while `WAIT_PID` (the
record of `sys1`) returns 0 and changes nothing. -/
theorem idemp_request_pid_reentrancy_guard_witness :
    rd_kafka_idemp_request_pid sys1.rk none none RespErr.NO_ERROR 7 =
      (sys1.rk, Effects.nil, 0) :=
  idemp_request_pid_reentrancy_guard.1 sys1.rk none none RespErr.NO_ERROR 7
    (by decide)

/-- C3 (refuting the liveness claim): the concrete execution
init → timer fires, request enqueued (`WAIT_PID`) → broker reports a
failure (timer re-armed, state stays `WAIT_PID`) → timer fires again
with a usable broker, but the `REQ_PID` guard rejects the attempt and
does not even re-arm the timer; from the resulting configuration `sys3`
no sequence of system steps can ever reach `ASSIGNED`, because no
request is in flight and every new attempt is rejected by the guard. -/
theorem idemp_retry_loop_stalls_after_request_failure :
    SysStep sys0 sys1 ∧ SysStep sys1 sys2 ∧ SysStep sys2 sys3 ∧
      rd_kafka_idemp_request_pid_tmr_cb sys2.rk (some 0)
          RespErr.NO_ERROR 2 = (sys3.rk, Effects.nil, 0) ∧
      sys3.rk.tmr_armed = false ∧
      ∀ s' : Sys, Relation.ReflTransGen SysStep sys3 s' →
        s'.rk.idemp_state ≠ IdempState.Assigned := by
  refine ⟨SysStep.tmrFire sys0 sys1 (some 0) RespErr.NO_ERROR 1 (by decide)
      (by decide),
    SysStep.respFailed sys1 sys2 (RespErr.other 0) (by decide) (by decide),
    SysStep.tmrFire sys2 sys3 (some 0) RespErr.NO_ERROR 2 (by decide)
      (by decide),
    by decide, by decide, ?_⟩
  intro s' hreach hc
  have hst := reflTransGen_stalled sys3 s' hreach ⟨Or.inl rfl, rfl⟩
  rcases hst.1 with hw | ht
  · exact absurd (hw.symm.trans hc) (by decide)
  · exact absurd (ht.symm.trans hc) (by decide)

/-- Witness for C3: the stalled configuration itself is not `ASSIGNED`. -/
theorem idemp_retry_loop_stalls_after_request_failure_witness :
    sys3.rk.idemp_state ≠ IdempState.Assigned :=
  idemp_retry_loop_stalls_after_request_failure.2.2.2.2.2 sys3
    Relation.ReflTransGen.refl

/-- C4: for any error other than `RD_KAFKA_RESP_ERR__DESTROY`,
`rd_kafka_idemp_request_pid_failed` leaves the lifecycle state and the
stored PID unchanged; its only effects are a debug log line and
re-arming the retry timer. -/
theorem idemp_request_pid_failed_frame (rk : RK) (err : RespErr)
    (h : err ≠ RespErr.DESTROY) :
    (rd_kafka_idemp_request_pid_failed rk err).1.idemp_state =
        rk.idemp_state ∧
      (rd_kafka_idemp_request_pid_failed rk err).1.pid = rk.pid ∧
      rd_kafka_idemp_request_pid_failed rk err =
        ({ rk with tmr_armed := true },
         { enqueued := false, tmr_restarted := true, wakeup := false,
           logs := [{ level := LogLevel.debug,
                      tag := LogTag.getPidFailed }] }) := by
  rw [request_pid_failed_other_eq rk err h]
  exact ⟨rfl, rfl, rfl⟩

/-- Witness for C4: a broker-reported failure while `WAIT_PID` keeps the
state `WAIT_PID` and the PID untouched, re-arming the timer. -/
theorem idemp_request_pid_failed_frame_witness :
    (rd_kafka_idemp_request_pid_failed sys1.rk (RespErr.other 5)).1.idemp_state =
        sys1.rk.idemp_state ∧
      (rd_kafka_idemp_request_pid_failed sys1.rk (RespErr.other 5)).1.pid =
        sys1.rk.pid ∧
      rd_kafka_idemp_request_pid_failed sys1.rk (RespErr.other 5) =
        ({ sys1.rk with tmr_armed := true },
         { enqueued := false, tmr_restarted := true, wakeup := false,
           logs := [{ level := LogLevel.debug,
                      tag := LogTag.getPidFailed }] }) :=
  idemp_request_pid_failed_frame sys1.rk (RespErr.other 5) (by decide)

/-- C5: a valid PID delivered while `WAIT_PID` is stored (the stored
pair afterwards equals the delivered pair, overwriting any previous
one), the state becomes `ASSIGNED`, and the all-brokers wakeup is
broadcast. -/
theorem idemp_pid_update_valid_assigns (rk : RK) (pid : Pid) (now : Nat)
    (hw : rk.idemp_state = IdempState.WaitPid)
    (hv : rd_kafka_pid_valid pid = true) :
    (rd_kafka_idemp_pid_update rk pid now).1.pid = pid ∧
      (rd_kafka_idemp_pid_update rk pid now).1.idemp_state =
        IdempState.Assigned ∧
      (rd_kafka_idemp_pid_update rk pid now).2.wakeup = true := by
  rw [pid_update_valid_eq rk pid now hw hv]
  exact ⟨rfl, rfl, rfl⟩

/-- Witness for C5: delivering `(1000, 0)` to the `WAIT_PID` record
`rkPrev`, which still holds the older PID `(7, 1)`, stores `(1000, 0)`,
assigns, and wakes the brokers. -/
theorem idemp_pid_update_valid_assigns_witness :
    (rd_kafka_idemp_pid_update rkPrev { id := 1000, epoch := 0 } 6).1.pid =
        { id := 1000, epoch := 0 } ∧
      (rd_kafka_idemp_pid_update rkPrev
        { id := 1000, epoch := 0 } 6).1.idemp_state = IdempState.Assigned ∧
      (rd_kafka_idemp_pid_update rkPrev
        { id := 1000, epoch := 0 } 6).2.wakeup = true :=
  idemp_pid_update_valid_assigns rkPrev { id := 1000, epoch := 0 } 6
    (by decide) (by decide)

/-- C6: an invalid PID delivered while `WAIT_PID` leaves the stored PID
untouched, logs a warning, hands the failure to
`rd_kafka_idemp_request_pid_failed` with `RD_KAFKA_RESP_ERR__BAD_MSG`
(so the retry timer is re-armed), and the state does not become
`ASSIGNED`. -/
theorem idemp_pid_update_invalid_retries (rk : RK) (pid : Pid) (now : Nat)
    (hw : rk.idemp_state = IdempState.WaitPid)
    (hv : rd_kafka_pid_valid pid = false) :
    (rd_kafka_idemp_pid_update rk pid now).1.pid = rk.pid ∧
      (rd_kafka_idemp_pid_update rk pid now).1.idemp_state =
        IdempState.WaitPid ∧
      (rd_kafka_idemp_pid_update rk pid now).1.idemp_state ≠
        IdempState.Assigned ∧
      (rd_kafka_idemp_pid_update rk pid now).2.tmr_restarted = true ∧
      (rd_kafka_idemp_pid_update rk pid now).2.wakeup = false ∧
      (rd_kafka_idemp_pid_update rk pid now).2.logs =
        [{ level := LogLevel.warning, tag := LogTag.getPidInvalidPid },
         { level := LogLevel.debug, tag := LogTag.getPidFailed }] ∧
      (rd_kafka_idemp_pid_update rk pid now).1 =
        (rd_kafka_idemp_request_pid_failed rk RespErr.BAD_MSG).1 := by
  rw [pid_update_invalid_eq rk pid now hw hv,
      request_pid_failed_other_eq rk RespErr.BAD_MSG (by decide)]
  refine ⟨rfl, hw, ?_, rfl, rfl, rfl, rfl⟩
  intro hc
  exact absurd (hw.symm.trans (by simpa using hc)) (by decide)

/-- Witness for C6 (Scenario 3): a response with `id = -1` delivered
while `WAIT_PID` is rejected, the PID stays untouched and a retry is
scheduled. -/
theorem idemp_pid_update_invalid_retries_witness :
    (rd_kafka_idemp_pid_update sys1.rk { id := -1, epoch := 0 } 4).1.pid =
        sys1.rk.pid ∧
      (rd_kafka_idemp_pid_update sys1.rk
        { id := -1, epoch := 0 } 4).1.idemp_state = IdempState.WaitPid ∧
      (rd_kafka_idemp_pid_update sys1.rk
        { id := -1, epoch := 0 } 4).1.idemp_state ≠ IdempState.Assigned ∧
      (rd_kafka_idemp_pid_update sys1.rk
        { id := -1, epoch := 0 } 4).2.tmr_restarted = true ∧
      (rd_kafka_idemp_pid_update sys1.rk
        { id := -1, epoch := 0 } 4).2.wakeup = false ∧
      (rd_kafka_idemp_pid_update sys1.rk { id := -1, epoch := 0 } 4).2.logs =
        [{ level := LogLevel.warning, tag := LogTag.getPidInvalidPid },
         { level := LogLevel.debug, tag := LogTag.getPidFailed }] ∧
      (rd_kafka_idemp_pid_update sys1.rk { id := -1, epoch := 0 } 4).1 =
        (rd_kafka_idemp_request_pid_failed sys1.rk RespErr.BAD_MSG).1 :=
  idemp_pid_update_invalid_retries sys1.rk { id := -1, epoch := 0 } 4
    (by decide) (by decide)

/-- C7: a response delivered in any state other than `WAIT_PID`
(including `TERM`) is logged and discarded: the record is returned
unchanged, nothing is enqueued, no retry is scheduled and no wakeup is
broadcast. -/
theorem idemp_pid_update_stale_discard (rk : RK) (pid : Pid) (now : Nat)
    (h : rk.idemp_state ≠ IdempState.WaitPid) :
    rd_kafka_idemp_pid_update rk pid now =
      (rk,
       { enqueued := false, tmr_restarted := false, wakeup := false,
         logs := [{ level := LogLevel.debug,
                    tag := LogTag.getPidIgnoringResponse }] }) :=
  pid_update_stale_eq rk pid now h

/-- Witness for C7 (Scenario 4): a response delivered after termination
is discarded with no transition. -/
theorem idemp_pid_update_stale_discard_witness :
    rd_kafka_idemp_pid_update rkTerm { id := 1000, epoch := 0 } 9 =
      (rkTerm,
       { enqueued := false, tmr_restarted := false, wakeup := false,
         logs := [{ level := LogLevel.debug,
                    tag := LogTag.getPidIgnoringResponse }] }) :=
  idemp_pid_update_stale_discard rkTerm { id := 1000, epoch := 0 } 9
    (by decide)

/-- C8: a failure classified `RD_KAFKA_RESP_ERR__DESTROY` is discarded:
the record is unchanged, no retry timer is armed, no wakeup happens, and
the only log line is at debug severity (never an error). -/
theorem idemp_request_pid_failed_destroy_silent (rk : RK) :
    rd_kafka_idemp_request_pid_failed rk RespErr.DESTROY =
      (rk,
       { enqueued := false, tmr_restarted := false, wakeup := false,
         logs := [{ level := LogLevel.debug,
                    tag := LogTag.getPidFailed }] }) ∧
      (rd_kafka_idemp_request_pid_failed rk
        RespErr.DESTROY).2.logs.map LogEvent.level = [LogLevel.debug] := by
  rw [request_pid_failed_destroy_eq rk]
  exact ⟨rfl, rfl⟩

/-- C9: terminating twice equals terminating once: the second
`rd_kafka_idemp_term` call returns the very same record with empty
effects (its state transition is a no-op that logs nothing and its timer
stop finds the timer already stopped), and the state is `TERM` after
either call. -/
theorem idemp_term_idempotent (rk : RK) (now1 now2 : Nat) :
    rd_kafka_idemp_term (rd_kafka_idemp_term rk now1).1 now2 =
      ((rd_kafka_idemp_term rk now1).1, Effects.nil) ∧
      (rd_kafka_idemp_term rk now1).1.idemp_state = IdempState.Term ∧
      (rd_kafka_idemp_term
        (rd_kafka_idemp_term rk now1).1 now2).1.idemp_state =
        IdempState.Term ∧
      (rd_kafka_idemp_term rk now1).1.tmr_armed = false := by
  have h1 := term_fields_eq rk now1
  exact ⟨term_noop _ now2 h1.1 h1.2.1, h1.1, (term_fields_eq _ now2).1,
    h1.2.1⟩

/-- C10: in `REQ_PID` with a broker resolved but a synchronously failing
enqueue, the state remains `REQ_PID`, the retry timer is armed, nothing
is enqueued and the call returns 0; the subsequently fired retry (with a
usable broker and a successful enqueue) passes the state guard and
returns 1. -/
theorem idemp_request_pid_enqueue_failure_keeps_requesting (rk : RK)
    (rkb any_usable : Option Broker) (enq_err : RespErr) (now : Nat)
    (hreq : rk.idemp_state = IdempState.ReqPid)
    (hb : (match rkb with
           | none => any_usable
           | some b => some b).isSome = true)
    (he : enq_err ≠ RespErr.NO_ERROR) :
    (rd_kafka_idemp_request_pid rk rkb any_usable enq_err now).1.idemp_state =
        IdempState.ReqPid ∧
      (rd_kafka_idemp_request_pid rk rkb any_usable
        enq_err now).1.tmr_armed = true ∧
      (rd_kafka_idemp_request_pid rk rkb any_usable enq_err now).2.2 = 0 ∧
      (rd_kafka_idemp_request_pid rk rkb any_usable
        enq_err now).2.1.enqueued = false ∧
      ∀ (b2 : Broker) (now2 : Nat),
        (rd_kafka_idemp_request_pid_tmr_cb
          (rd_kafka_idemp_request_pid rk rkb any_usable enq_err now).1
          (some b2) RespErr.NO_ERROR now2).2.2 = 1 := by
  rw [request_pid_enq_fail_eq rk rkb any_usable enq_err now hreq hb he]
  refine ⟨hreq, rfl, rfl, rfl, ?_⟩
  intro b2 now2
  exact tmr_cb_ret_one _ b2 now2 (by exact hreq)

/-- Witness for C10: a failing enqueue on the fresh `REQ_PID` record
leaves it requesting with the timer armed, and the next retry with a
healthy broker enqueues and returns 1. -/
theorem idemp_request_pid_enqueue_failure_keeps_requesting_witness :
    (rd_kafka_idemp_request_pid sys0.rk (some 0) none
        (RespErr.other 3) 1).1.idemp_state = IdempState.ReqPid ∧
      (rd_kafka_idemp_request_pid sys0.rk (some 0) none
        (RespErr.other 3) 1).1.tmr_armed = true ∧
      (rd_kafka_idemp_request_pid sys0.rk (some 0) none
        (RespErr.other 3) 1).2.2 = 0 ∧
      (rd_kafka_idemp_request_pid_tmr_cb
        (rd_kafka_idemp_request_pid sys0.rk (some 0) none
          (RespErr.other 3) 1).1
        (some 0) RespErr.NO_ERROR 9).2.2 = 1 := by
  have h := idemp_request_pid_enqueue_failure_keeps_requesting sys0.rk
    (some 0) none (RespErr.other 3) 1 (by decide) (by decide) (by decide)
  exact ⟨h.1, h.2.1, h.2.2.1, h.2.2.2.2 0 9⟩

end RdKafkaIdemp
